import Mathlib

/-!
Verification of the LOKSAR backend (src/cleanhome-backend/server.js).

The server is a single JavaScript file: a value-formatting helper
(`formatValue`), an HTML e-mail template (`generateEmailTemplate`), a
dispatcher (`sendEmail`) over an external mail transport, and three POST
handlers (contact, cleaning booking, gardening booking) that each build
two e-mails (admin copy, customer copy) and send them in order.

We shallowly embed the JavaScript values and the program's pure logic.
JavaScript runtime values are modelled by `JSValue`; template-literal
interpolation and `Array.prototype.join` element conversion are modelled
by `jsToString` / `jsJoinElem`; property access by `jsGet`.  The mail
transport is an external collaborator and is modelled as a parameter
`transport : EmailMsg → Bool` (`true` = the send resolves, `false` = it
rejects); a handler is then a pure function producing the list of
attempted sends and the HTTP response.

Representation notes:
* objects are association lists in insertion order (the JavaScript
  reordering of integer-like keys is not exercised by this program's
  form data and is not modelled);
* JavaScript numbers are modelled as integers (`Int`); the program only
  ever converts them to decimal strings;
* `JSON.parse` of the multipart sub-fields is outside the model: the
  handlers are embedded from the point where `userDetails` and
  `bookingDetails` are already parsed values.
-/

namespace Loksar

/-- A JavaScript runtime value, as far as server.js manipulates them. -/
inductive JSValue where
  | undefined
  | null
  | bool (b : Bool)
  | str (s : String)
  | num (n : Int)
  | arr (elems : List JSValue)
  | obj (fields : List (String × JSValue))

/-- JavaScript truthiness (`if (x)`), for the value shapes modelled. -/
def truthy : JSValue → Bool
  | .undefined => false
  | .null => false
  | .bool b => b
  | .str s => s != ""
  | .num n => n != 0
  | .arr _ => true
  | .obj _ => true

/-- `typeof x === 'object'` (true for objects, arrays and `null`). -/
def jsTypeofObject : JSValue → Bool
  | .obj _ => true
  | .arr _ => true
  | .null => true
  | _ => false

/-- Property lookup in an association-list object, first binding wins. -/
def jsLookup : List (String × JSValue) → String → JSValue
  | [], _ => .undefined
  | (k, v) :: rest, key => if k = key then v else jsLookup rest key

/-- JavaScript property access `x.key`: `undefined` on non-objects
(the program only ever reads ad hoc keys, never array indices or
built-ins such as `.length`). -/
def jsGet : JSValue → String → JSValue
  | .obj fields, key => jsLookup fields key
  | _, _ => .undefined

/-- `x !== 's'` for a string literal `s`: false exactly when `x` is the
string `s` (strict inequality). -/
def jsStrictNeStr (v : JSValue) (s : String) : Bool :=
  match v with
  | .str t => t != s
  | _ => true

/-- The JavaScript `||` operator: left operand if truthy, else right. -/
def jsOr (a b : JSValue) : JSValue :=
  if truthy a then a else b

mutual

/-- `String(x)` / template-literal interpolation of a value. -/
def jsToString : JSValue → String
  | .undefined => "undefined"
  | .null => "null"
  | .bool b => if b then "true" else "false"
  | .str s => s
  | .num n => toString n
  | .arr xs => String.intercalate "," (jsArrElems xs)
  | .obj _ => "[object Object]"

/-- Element conversions of `Array.prototype.toString` (= `join(",")`):
like `String(x)` except that `null` and `undefined` render as `""`. -/
def jsArrElems : List JSValue → List String
  | [] => []
  | x :: xs =>
    (match x with
     | .null => ""
     | .undefined => ""
     | v => jsToString v) :: jsArrElems xs

end

/-- Element conversion used by `Array.prototype.join`: `null` and
`undefined` become `""`, anything else converts via `String(x)`. -/
def jsJoinElem : JSValue → String
  | .null => ""
  | .undefined => ""
  | v => jsToString v

mutual

/-- server.js lines 33-64, `formatValue`: the "Robust Data Formatter". -/
def formatValue : JSValue → JSValue
  | .null => .str "N/A"
  | .undefined => .str "N/A"
  -- `data === ''` hits only strings; then `typeof data === 'string'`
  | .str s => if s = "" then .str "N/A" else .str s
  -- `typeof data === 'number'` → `return data` (the number itself)
  | .num n => .num n
  -- line 40: `Array.isArray(data)`
  | .arr xs =>
    if xs.isEmpty then .str "N/A"
    else .str (String.intercalate ", " (formatItems xs))
  -- line 46: `typeof data === 'object'`
  | .obj fields =>
    let label := jsLookup fields "label"
    if truthy label then label
    else
      let tValue := jsLookup fields "value"
      if truthy tValue then tValue
      else
        let tName := jsLookup fields "name"
        if truthy tName then tName
        else
          let i := jsLookup fields "id"
          if truthy i && jsStrictNeStr i "other" then i
          else
            let o := jsLookup fields "other"
            if truthy o then o
            else
              -- lines 57-58: `Object.values(data)`, return the first
              -- value when it is a string
              match fields with
              | (_, .str s) :: _ => .str s
              | _ => .str "Provided"
  -- any remaining type (`boolean` here) → line 63 `String(data)`
  | .bool b => .str (if b then "true" else "false")

/-- Line 42, `data.map(item => formatValue(item)).join(', ')`: the
recursive formatting of the elements, fused with the element
conversion that `join` applies. -/
def formatItems : List JSValue → List String
  | [] => []
  | x :: xs => jsJoinElem (formatValue x) :: formatItems xs

end

/-- Environment configuration read by server.js: `EMAIL_USER`,
`ADMIN_EMAIL`, and the current year used by the template footer
(`new Date().getFullYear()`, the template's only impurity). -/
structure Env where
  EMAIL_USER : String
  ADMIN_EMAIL : String
  year : Nat

/-- One e-mail attachment: `{ filename, content }` (lines 171-174). -/
structure Attachment where
  filename : String
  content : List Nat

/-- One multer in-memory upload: `{ originalname, buffer }`. -/
structure UploadedFile where
  originalname : String
  buffer : List Nat

/-- The message object handed to `transporter.sendMail` (lines 111-117).
The source's `from` and `to` fields are named `fromAddr` and `toAddr`
(`from` and `to` are reserved words in Lean). -/
structure EmailMsg where
  fromAddr : String
  toAddr : JSValue
  subject : String
  html : String
  attachments : List Attachment

set_option linter.unusedVariables false in
/-- server.js lines 67-107, `generateEmailTemplate`: wraps a content
fragment in the branded HTML document.  The `title` parameter is
accepted but never interpolated, exactly as in the source. -/
def generateEmailTemplate (env : Env) (title content : String) : String :=
  "\n    <!DOCTYPE html>\n    <html>\n    <head>\n      <meta charset=\"utf-8\">\n      <style>"
  ++ "\n        body \x7b font-family: \x27Helvetica Neue\x27, Helvetica, Arial, sans-serif; line-height: 1.6; color: #333; margin: 0; padding: 0; background-color: #f4f4f4; \x7d"
  ++ "\n        .container \x7b max-width: 600px; margin: 20px auto; background: #ffffff; border-radius: 8px; overflow: hidden; box-shadow: 0 2px 8px rgba(0,0,0,0.1); \x7d"
  ++ "\n        .header \x7b background-color: #0D6B7D; padding: 30px; text-align: center; \x7d"
  ++ "\n        .header h1 \x7b color: #ffffff; margin: 0; font-size: 26px; font-weight: 700; letter-spacing: 1px; \x7d"
  ++ "\n        .header p \x7b color: #e0f7fa; margin: 5px 0 0; font-size: 14px; \x7d"
  ++ "\n        .content \x7b padding: 40px 30px; \x7d"
  ++ "\n        .footer \x7b background-color: #f8f9fa; padding: 20px; text-align: center; font-size: 12px; color: #888; border-top: 1px solid #eee; \x7d"
  ++ "\n        .section-title \x7b font-size: 16px; font-weight: 700; color: #0D6B7D; text-transform: uppercase; margin: 25px 0 15px 0; border-bottom: 2px solid #e0f2f1; padding-bottom: 8px; \x7d"
  ++ "\n        .info-table \x7b width: 100%; border-collapse: collapse; margin-bottom: 20px; \x7d"
  ++ "\n        .info-table td \x7b padding: 10px 0; border-bottom: 1px solid #f0f0f0; font-size: 14px; \x7d"
  ++ "\n        .info-table td:first-child \x7b width: 40%; font-weight: 600; color: #555; \x7d"
  ++ "\n        .info-table td:last-child \x7b color: #333; \x7d"
  ++ "\n        .highlight \x7b background-color: #e0f7fa; border-radius: 6px; padding: 15px; border-left: 4px solid #0D6B7D; margin: 20px 0; \x7d"
  ++ "\n        .description-box \x7b background-color: #f9f9f9; padding: 15px; border-radius: 6px; border: 1px solid #eee; font-style: italic; color: #555; \x7d"
  ++ "\n      </style>\n    </head>\n    <body>\n      <div class=\"container\">\n        <div class=\"header\">\n          <h1>LOKSAR</h1>\n          <p>Professional Home & Gardening Services</p>\n        </div>\n        <div class=\"content\">\n          "
  ++ content
  ++ "\n        </div>\n        <div class=\"footer\">\n          <p>&copy; "
  ++ toString env.year
  ++ " Loksar Services. All rights reserved.</p>\n          <p>Leicester, United Kingdom | support@loksar.com</p>\n        </div>\n      </div>\n    </body>\n    </html>\n  "

/-- server.js lines 109-123, `sendEmail`: one call to the transport; on
success it resolves, on rejection it logs and rethrows the same error —
no retry, no swallowing.  The transport is a parameter (`true` =
resolve, `false` = reject). -/
def sendEmail (transport : EmailMsg → Bool) (m : EmailMsg) : Except Unit Unit :=
  if transport m then Except.ok () else Except.error ()

/-- The `await sendEmail(...); await sendEmail(...)` sequence inside a
handler's `try` block: attempts the messages in order, stopping at the
first rejection (a rejection aborts the rest of the `try` block).
Returns the attempted messages, in order, and whether all succeeded. -/
def runSends (transport : EmailMsg → Bool) : List EmailMsg → List EmailMsg × Bool
  | [] => ([], true)
  | m :: rest =>
    match sendEmail transport m with
    | Except.ok _ =>
      let r := runSends transport rest
      (m :: r.1, r.2)
    | Except.error _ => ([m], false)

/-- The observable outcome of one handler invocation: the transport
calls it made (in order) and the HTTP response. -/
structure HandlerResult where
  attempted : List EmailMsg
  status : Nat
  success : Bool

/-- The shared `try { ...sends...; res.status(200).json({success:true}) }
catch { res.status(500).json({success:false}) }` boundary. -/
def respond (transport : EmailMsg → Bool) (msgs : List EmailMsg) : HandlerResult :=
  let r := runSends transport msgs
  ⟨r.1, if r.2 then 200 else 500, r.2⟩

/-- Body of POST /api/contact (line 129 destructuring). -/
structure ContactBody where
  name : JSValue
  email : JSValue
  phone : JSValue
  subject : JSValue
  message : JSValue

/-- Lines 131-144: the admin-facing fragment of /api/contact. -/
def contactAdminContent (body : ContactBody) : String :=
  "\n    <h2 style=\"color: #333; margin-top:0;\">New Inquiry</h2>\n    <div class=\"highlight\">\n      <strong>Subject:</strong> "
  ++ jsToString body.subject
  ++ "\n    </div>\n    <div class=\"section-title\">Contact Details</div>\n    <table class=\"info-table\">\n      <tr><td>Name</td><td>"
  ++ jsToString body.name
  ++ "</td></tr>\n      <tr><td>Email</td><td><a href=\"mailto:"
  ++ jsToString body.email
  ++ "\" style=\"color:#0D6B7D; text-decoration:none;\">"
  ++ jsToString body.email
  ++ "</a></td></tr>\n      <tr><td>Phone</td><td>"
  ++ jsToString body.phone
  ++ "</td></tr>\n    </table>\n    <div class=\"section-title\">Message</div>\n    <div class=\"description-box\">"
  ++ jsToString body.message
  ++ "</div>\n  "

/-- Lines 146-153: the customer-facing fragment of /api/contact. -/
def contactUserContent (body : ContactBody) : String :=
  "\n    <h2 style=\"color: #333; margin-top:0;\">Hello "
  ++ jsToString body.name
  ++ ",</h2>\n    <p>Thank you for contacting <strong>LOKSAR</strong>. We have successfully received your inquiry regarding <strong>\""
  ++ jsToString body.subject
  ++ "\"</strong>.</p>\n    <div class=\"highlight\">\n      Our team will review your message and get back to you within 24 hours.\n    </div>\n    <p>Best Regards,<br>The Loksar Team</p>\n  "

/-- Lines 111-117: the message given to the transport.  Fields in
order: fromAddr, to, subject, html, attachments. -/
def mailOptions (env : Env) (toAddr : JSValue) (subject html : String)
    (attachments : List Attachment) : EmailMsg :=
  ⟨"\"Loksar Services\" <" ++ env.EMAIL_USER ++ ">", toAddr, subject, html, attachments⟩

/-- Line 156: the admin copy of a contact submission. -/
def contactAdminMsg (env : Env) (body : ContactBody) : EmailMsg :=
  mailOptions env (.str env.ADMIN_EMAIL) ("New Contact: " ++ jsToString body.subject)
    (generateEmailTemplate env "New Contact" (contactAdminContent body)) []

/-- Line 157: the customer copy of a contact submission. -/
def contactUserMsg (env : Env) (body : ContactBody) : EmailMsg :=
  mailOptions env body.email "We received your message - Loksar"
    (generateEmailTemplate env "Thank You" (contactUserContent body)) []

/-- server.js lines 128-162: the POST /api/contact handler. -/
def contactHandler (transport : EmailMsg → Bool) (env : Env) (body : ContactBody) :
    HandlerResult :=
  respond transport [contactAdminMsg env body, contactUserMsg env body]

/-- Body of a booking POST after the multipart parse: `userDetails` and
`bookingDetails` are the already-`JSON.parse`d sub-objects,
`description` the raw text field (`undefined` when absent), `files` the
multer upload array (`undefined` when no multipart files field). -/
structure BookingRequestBody where
  userDetails : JSValue
  bookingDetails : JSValue
  description : JSValue
  files : Option (List UploadedFile)

/-- Lines 171-174: `req.files ? req.files.map(file => ({ filename:
file.originalname, content: file.buffer })) : []`. -/
def emailAttachmentsOf : Option (List UploadedFile) → List Attachment
  | some fs => fs.map (fun f => ⟨f.originalname, f.buffer⟩)
  | none => []

/-- server.js lines 176-189: the Preferred Days display value.  The
`bestDays` field may be a sequence (formatted directly) or an object
with a nested `bestDays` sequence plus optional `other` free text; any
other truthy shape leaves the initial `'N/A'`.  The `+=` and the row
interpolation stringify, modelled by `jsToString`. -/
def bestDaysDisplay (bookingDetails : JSValue) : String :=
  let bd := jsGet bookingDetails "bestDays"
  if truthy bd then
    match bd with
    | .arr xs => jsToString (formatValue (.arr xs))
    | _ =>
      if truthy (jsGet bd "bestDays") then
        let days := formatValue (jsGet bd "bestDays")
        if truthy (jsGet bd "other") then
          jsToString days ++ " (Other: " ++ jsToString (jsGet bd "other") ++ ")"
        else jsToString days
      else "N/A"
  else "N/A"

/-- server.js lines 191-200: the Current Cleaner display value. -/
def currentCleanerDisplay (bookingDetails : JSValue) : String :=
  let cc := jsGet bookingDetails "currentCleaner"
  if truthy cc then
    if jsTypeofObject cc && truthy (jsGet cc "currentCleaner") then
      if truthy (jsGet cc "other") then
        jsToString (jsGet cc "currentCleaner") ++ " (" ++ jsToString (jsGet cc "other") ++ ")"
      else jsToString (jsGet cc "currentCleaner")
    else jsToString (formatValue cc)
  else "N/A"

/-- server.js lines 202-206: the Service Type display value. -/
def cleaningTypeDisplay (bookingDetails : JSValue) : String :=
  if truthy (jsGet bookingDetails "cleaningTypeOther") then
    jsToString (formatValue (jsGet bookingDetails "cleaningType"))
      ++ " (" ++ jsToString (jsGet bookingDetails "cleaningTypeOther") ++ ")"
  else jsToString (formatValue (jsGet bookingDetails "cleaningType"))

/-- Lines 208-219: the ten cleaning rows (the Bathrooms row reads
`receptionRooms`, as in the source). -/
def cleaningBookingRows (bookingDetails : JSValue) : String :=
  "\n      <tr><td>Property Type</td><td>" ++ jsToString (formatValue (jsGet bookingDetails "propertyType"))
  ++ "</td></tr>\n      <tr><td>Frequency</td><td>" ++ jsToString (formatValue (jsGet bookingDetails "frequency"))
  ++ "</td></tr>\n      <tr><td>Bedrooms</td><td>" ++ jsToString (formatValue (jsGet bookingDetails "bedrooms"))
  ++ "</td></tr>\n      <tr><td>Bathrooms</td><td>" ++ jsToString (formatValue (jsGet bookingDetails "receptionRooms"))
  ++ "</td></tr>\n      <tr><td>Service Type</td><td>" ++ cleaningTypeDisplay bookingDetails
  ++ "</td></tr>\n      <tr><td>Current Cleaner</td><td>" ++ currentCleanerDisplay bookingDetails
  ++ "</td></tr>\n      <tr><td>Preferred Days</td><td>" ++ bestDaysDisplay bookingDetails
  ++ "</td></tr>\n      <tr><td>Supplies</td><td>" ++ jsToString (formatValue (jsGet bookingDetails "supplyMaterials"))
  ++ "</td></tr>\n      <tr><td>Hiring Decision</td><td>" ++ jsToString (formatValue (jsGet bookingDetails "hiringDecision"))
  ++ "</td></tr>\n      <tr><td>Location</td><td>" ++ jsToString (formatValue (jsGet bookingDetails "location"))
  ++ "</td></tr>\n    "

/-- Lines 222-234: the admin fragment of /api/book-cleaning.
`description` is the handler's `req.body.description || ''` value. -/
def cleaningAdminContent (userDetails bookingDetails description : JSValue) : String :=
  "\n      <h2 style=\"color: #d32f2f; margin-top:0;\">New Cleaning Job Request</h2>\n      <div class=\"section-title\">Customer Details</div>\n      <table class=\"info-table\">\n        <tr><td>Name</td><td>"
  ++ jsToString (jsGet userDetails "name")
  ++ "</td></tr>\n        <tr><td>Email</td><td>" ++ jsToString (jsGet userDetails "email")
  ++ "</td></tr>\n        <tr><td>Phone</td><td>" ++ jsToString (jsGet userDetails "phone")
  ++ "</td></tr>\n      </table>\n      <div class=\"section-title\">Job Specification</div>\n      <table class=\"info-table\">"
  ++ cleaningBookingRows bookingDetails
  ++ "</table>\n      <div class=\"section-title\">Customer Notes</div>\n      <div class=\"description-box\">"
  ++ jsToString (jsOr description (.str "No additional notes provided."))
  ++ "</div>\n    "

/-- Lines 237-247: the customer fragment of /api/book-cleaning. -/
def cleaningUserContent (userDetails bookingDetails : JSValue) : String :=
  "\n      <h2 style=\"color: #333; margin-top:0;\">Booking Confirmation</h2>\n      <p>Dear "
  ++ jsToString (jsGet userDetails "name")
  ++ ",</p>\n      <p>Thank you for choosing <strong>LOKSAR</strong>. We have received your request for a cleaning service.</p>\n      <div class=\"highlight\">\n        We will review your property details and provide you with a competitive quote shortly.\n      </div>\n      <div class=\"section-title\">Your Request Summary</div>\n      <table class=\"info-table\">"
  ++ cleaningBookingRows bookingDetails
  ++ "</table>\n      <p>Best Regards,<br>The Loksar Team</p>\n    "

/-- Line 249: the admin copy of a cleaning booking (with attachments). -/
def cleaningAdminMsg (env : Env) (body : BookingRequestBody) : EmailMsg :=
  mailOptions env (.str env.ADMIN_EMAIL) "New Cleaning Job Alert"
    (generateEmailTemplate env "New Cleaning Job"
      (cleaningAdminContent body.userDetails body.bookingDetails
        (jsOr body.description (.str ""))))
    (emailAttachmentsOf body.files)

/-- Line 250: the customer copy of a cleaning booking (no attachments). -/
def cleaningUserMsg (env : Env) (body : BookingRequestBody) : EmailMsg :=
  mailOptions env (jsGet body.userDetails "email") "Booking Received - Loksar Services"
    (generateEmailTemplate env "Booking Received"
      (cleaningUserContent body.userDetails body.bookingDetails)) []

/-- server.js lines 165-257: the POST /api/book-cleaning handler. -/
def cleaningHandler (transport : EmailMsg → Bool) (env : Env) (body : BookingRequestBody) :
    HandlerResult :=
  respond transport [cleaningAdminMsg env body, cleaningUserMsg env body]

/-- Lines 271-282: the ten gardening rows. -/
def gardeningBookingRows (bookingDetails : JSValue) : String :=
  "\n      <tr><td>Property Type</td><td>" ++ jsToString (formatValue (jsGet bookingDetails "propertyType"))
  ++ "</td></tr>\n      <tr><td>Services</td><td>" ++ jsToString (formatValue (jsGet bookingDetails "services"))
  ++ "</td></tr>\n      <tr><td>Frequency</td><td>" ++ jsToString (formatValue (jsGet bookingDetails "frequency"))
  ++ "</td></tr>\n      <tr><td>Garden Size</td><td>" ++ jsToString (formatValue (jsGet bookingDetails "gardenSize"))
  ++ "</td></tr>\n      <tr><td>Condition</td><td>" ++ jsToString (formatValue (jsGet bookingDetails "gardenCondition"))
  ++ "</td></tr>\n      <tr><td>Plants</td><td>" ++ jsToString (formatValue (jsGet bookingDetails "plants"))
  ++ "</td></tr>\n      <tr><td>Waste Removal</td><td>" ++ jsToString (formatValue (jsGet bookingDetails "gardenWaste"))
  ++ "</td></tr>\n      <tr><td>Start Time</td><td>" ++ jsToString (formatValue (jsGet bookingDetails "workBegin"))
  ++ "</td></tr>\n      <tr><td>Hiring Decision</td><td>" ++ jsToString (formatValue (jsGet bookingDetails "hiringDecision"))
  ++ "</td></tr>\n      <tr><td>Location</td><td>" ++ jsToString (formatValue (jsGet bookingDetails "location"))
  ++ "</td></tr>\n    "

/-- Lines 284-296: the admin fragment of /api/book-gardening. -/
def gardeningAdminContent (userDetails bookingDetails description : JSValue) : String :=
  "\n      <h2 style=\"color: #2e7d32; margin-top:0;\">New Gardening Job Request</h2>\n      <div class=\"section-title\">Customer Details</div>\n      <table class=\"info-table\">\n        <tr><td>Name</td><td>"
  ++ jsToString (jsGet userDetails "name")
  ++ "</td></tr>\n        <tr><td>Email</td><td>" ++ jsToString (jsGet userDetails "email")
  ++ "</td></tr>\n        <tr><td>Phone</td><td>" ++ jsToString (jsGet userDetails "phone")
  ++ "</td></tr>\n      </table>\n      <div class=\"section-title\">Job Specification</div>\n      <table class=\"info-table\">"
  ++ gardeningBookingRows bookingDetails
  ++ "</table>\n      <div class=\"section-title\">Customer Notes</div>\n      <div class=\"description-box\">"
  ++ jsToString (jsOr description (.str "No additional notes provided."))
  ++ "</div>\n    "

/-- Lines 298-308: the customer fragment of /api/book-gardening. -/
def gardeningUserContent (userDetails bookingDetails : JSValue) : String :=
  "\n      <h2 style=\"color: #333; margin-top:0;\">Booking Confirmation</h2>\n      <p>Dear "
  ++ jsToString (jsGet userDetails "name")
  ++ ",</p>\n      <p>Thank you for choosing <strong>LOKSAR</strong>. We have received your gardening service request.</p>\n      <div class=\"highlight\">\n        Our gardening experts will review your requirements and get back to you soon.\n      </div>\n      <div class=\"section-title\">Your Request Summary</div>\n      <table class=\"info-table\">"
  ++ gardeningBookingRows bookingDetails
  ++ "</table>\n      <p>Best Regards,<br>The Loksar Team</p>\n    "

/-- Line 310: the admin copy of a gardening booking (with attachments). -/
def gardeningAdminMsg (env : Env) (body : BookingRequestBody) : EmailMsg :=
  mailOptions env (.str env.ADMIN_EMAIL) "New Gardening Job Alert"
    (generateEmailTemplate env "New Gardening Job"
      (gardeningAdminContent body.userDetails body.bookingDetails
        (jsOr body.description (.str ""))))
    (emailAttachmentsOf body.files)

/-- Line 311: the customer copy of a gardening booking (no attachments). -/
def gardeningUserMsg (env : Env) (body : BookingRequestBody) : EmailMsg :=
  mailOptions env (jsGet body.userDetails "email") "Booking Received - Loksar Services"
    (generateEmailTemplate env "Booking Received"
      (gardeningUserContent body.userDetails body.bookingDetails)) []

/-- server.js lines 260-318: the POST /api/book-gardening handler. -/
def gardeningHandler (transport : EmailMsg → Bool) (env : Env) (body : BookingRequestBody) :
    HandlerResult :=
  respond transport [gardeningAdminMsg env body, gardeningUserMsg env body]

/-! ## Helper lemmas -/

theorem truthy_arr (xs : List JSValue) : truthy (.arr xs) = true := rfl

theorem truthy_obj (fs : List (String × JSValue)) : truthy (.obj fs) = true := rfl

theorem jsGet_obj (fs : List (String × JSValue)) (k : String) :
    jsGet (.obj fs) k = jsLookup fs k := rfl

theorem jsOr_undefined (b : JSValue) : jsOr .undefined b = b := rfl

theorem jsOr_str_empty (b : JSValue) : jsOr (.str "") b = b := rfl

theorem jsToString_str (s : String) : jsToString (.str s) = s := rfl

theorem str_append_empty (s : String) : s ++ "" = s := String.append_empty s

/-- The element formatting of `formatValue` on an array is the map of
the element conversion over the recursively formatted elements. -/
theorem formatItems_eq_map (xs : List JSValue) :
    formatItems xs = xs.map (fun x => jsJoinElem (formatValue x)) := by
  induction xs with
  | nil => rfl
  | cons x xs ih => simp [formatItems, ih]

/-- `s` contains `t` as a (contiguous) substring. -/
def ContainsSub (s t : String) : Prop := ∃ pre post : String, s = pre ++ (t ++ post)

theorem containsSub_cons (a : String) {s t : String} (h : ContainsSub s t) :
    ContainsSub (a ++ s) t := by
  obtain ⟨p, q, rfl⟩ := h
  exact ⟨a ++ p, q, by simp [String.append_assoc]⟩

theorem containsSub_appL {s t : String} (h : ContainsSub s t) (b : String) :
    ContainsSub (s ++ b) t := by
  obtain ⟨p, q, rfl⟩ := h
  exact ⟨p, q ++ b, by simp [String.append_assoc]⟩

theorem containsSub_tail (a t : String) : ContainsSub (a ++ t) t :=
  ⟨a, "", by simp⟩

/-- Behaviour of the shared two-send `try` block: success exactly when
both sends are accepted; the admin message is attempted first and the
customer message is attempted only after the admin send succeeds; the
HTTP status follows the success flag. -/
theorem respond_two (transport : EmailMsg → Bool) (m1 m2 : EmailMsg) :
    ((respond transport [m1, m2]).success = true ↔
      (transport m1 = true ∧ transport m2 = true)) ∧
    (respond transport [m1, m2]).attempted =
      (if transport m1 then [m1, m2] else [m1]) ∧
    (respond transport [m1, m2]).status =
      (if (respond transport [m1, m2]).success then 200 else 500) := by
  cases h1 : transport m1 <;> cases h2 : transport m2 <;>
    simp [respond, runSends, sendEmail, h1, h2]

/-! ## Claims -/

/-- The structured-object rule of the Value Formatter, written from the
spec's words (claim C1): search, in fixed priority order, for a
`label`, then `value`, then `name` field and return the first non-empty
match; else if an `id` field is present and not equal to the literal
string "other", return it; else if an `other` field is present, return
it; else fall back to the first value in the object if that value is a
string; else return the literal placeholder "Provided".  "Non-empty"
and "present" are read as JavaScript truthiness, which on the string
fields of form data means: present and not `""`. -/
def specObjectDisplay (fields : List (String × JSValue)) : JSValue :=
  match [jsLookup fields "label", jsLookup fields "value", jsLookup fields "name"].find? truthy with
  | some v => v
  | none =>
    let i := jsLookup fields "id"
    if truthy i && jsStrictNeStr i "other" then i
    else
      let o := jsLookup fields "other"
      if truthy o then o
      else
        match fields with
        | (_, .str s) :: _ => .str s
        | _ => .str "Provided"

/-- C1: on every structured (key-value, non-array) object input,
`formatValue` follows exactly the spec's priority search
(`specObjectDisplay`); in particular `{ id: "other", other: "Custom" }`
formats to "Custom" and `{ label: "X", value: "Y" }` formats to "X". -/
theorem formatValue_object_spec_priority :
    (∀ fields : List (String × JSValue),
      formatValue (.obj fields) = specObjectDisplay fields) ∧
    formatValue (.obj [("id", .str "other"), ("other", .str "Custom")]) = .str "Custom" ∧
    formatValue (.obj [("label", .str "X"), ("value", .str "Y")]) = .str "X" := by
  refine ⟨?_, rfl, rfl⟩
  intro fields
  cases h1 : truthy (jsLookup fields "label") <;>
  cases h2 : truthy (jsLookup fields "value") <;>
  cases h3 : truthy (jsLookup fields "name") <;>
  simp [formatValue, specObjectDisplay, List.find?, h1, h2, h3]

/-- C2: `formatValue` returns the placeholder "N/A" on `null`, on
`undefined` and on the empty string. -/
theorem formatValue_nullish_returns_NA :
    formatValue .null = .str "N/A" ∧
    formatValue .undefined = .str "N/A" ∧
    formatValue (.str "") = .str "N/A" :=
  ⟨rfl, rfl, rfl⟩

/-- C3: `formatValue` of the empty sequence is "N/A", and of every
non-empty sequence is exactly the ", "-join of the recursively
formatted elements (each element rendered by the join's string
conversion). -/
theorem formatValue_seq_join :
    formatValue (.arr []) = .str "N/A" ∧
    ∀ xs : List JSValue, xs ≠ [] →
      formatValue (.arr xs) =
        .str (String.intercalate ", " (xs.map (fun x => jsJoinElem (formatValue x)))) := by
  refine ⟨rfl, ?_⟩
  intro xs h
  cases xs with
  | nil => exact absurd rfl h
  | cons x xs => simp [formatValue, formatItems_eq_map]

/-- Witness for C3 at the concrete sequence `["a", 2]`. -/
theorem formatValue_seq_join_witness :
    [JSValue.str "a", JSValue.num 2] ≠ [] ∧
    formatValue (.arr [.str "a", .num 2]) =
      .str (String.intercalate ", "
        ([JSValue.str "a", JSValue.num 2].map (fun x => jsJoinElem (formatValue x)))) :=
  ⟨by simp, formatValue_seq_join.2 [.str "a", .num 2] (by simp)⟩

/-- C4 counterexample: the claim "for every string input the Value
Formatter returns the string unchanged" fails at the concrete input
`""`: `formatValue("")` is "N/A", not `""`. -/
theorem formatValue_empty_string_counterexample :
    formatValue (.str "") = .str "N/A" ∧ JSValue.str "N/A" ≠ JSValue.str "" := by
  refine ⟨rfl, ?_⟩
  intro h
  rw [JSValue.str.injEq] at h
  exact absurd h (by decide)

/-- C4 amended: every non-empty string input is returned unchanged; a
number input is returned as the number itself, whose display (string)
form is its decimal representation. -/
theorem formatValue_string_number_amended :
    (∀ s : String, s ≠ "" → formatValue (.str s) = .str s) ∧
    (∀ n : Int, formatValue (.num n) = .num n ∧
      jsToString (formatValue (.num n)) = toString n) := by
  refine ⟨?_, fun n => ⟨rfl, rfl⟩⟩
  intro s h
  simp [formatValue, h]

/-- Witness for the amended C4 at the concrete string "x". -/
theorem formatValue_string_number_amended_witness :
    ("x" : String) ≠ "" ∧ formatValue (.str "x") = .str "x" :=
  ⟨by decide, formatValue_string_number_amended.1 "x" (by decide)⟩

/-- C5: for a booking whose `bestDays` field is
`{ bestDays: ["Mon","Wed"], other: "evenings" }` the rendered Preferred
Days row value is "Mon, Wed (Other: evenings)"; in general, when the
`bestDays` field is itself a sequence it is formatted directly, and
when it is an object with a nested `bestDays` sequence that sequence is
formatted and any truthy `other` free text is appended with the suffix
" (Other: <text>)". -/
theorem bestDays_preferred_row :
    bestDaysDisplay (.obj [("bestDays",
        .obj [("bestDays", .arr [.str "Mon", .str "Wed"]), ("other", .str "evenings")])]) =
      "Mon, Wed (Other: evenings)" ∧
    (∀ (bookingDetails : JSValue) (xs : List JSValue),
      jsGet bookingDetails "bestDays" = .arr xs →
      bestDaysDisplay bookingDetails = jsToString (formatValue (.arr xs))) ∧
    (∀ (bookingDetails : JSValue) (nf : List (String × JSValue)) (xs : List JSValue),
      jsGet bookingDetails "bestDays" = .obj nf →
      jsLookup nf "bestDays" = .arr xs →
      bestDaysDisplay bookingDetails = jsToString (formatValue (.arr xs)) ++
        (if truthy (jsLookup nf "other")
         then " (Other: " ++ jsToString (jsLookup nf "other") ++ ")" else "")) := by
  refine ⟨rfl, ?_, ?_⟩
  · intro bookingDetails xs h
    simp only [bestDaysDisplay, h, truthy_arr, if_true, ite_true]
  · intro bookingDetails nf xs h1 h2
    cases ht : truthy (jsLookup nf "other") <;>
      simp only [bestDaysDisplay, h1, truthy_obj, truthy_arr, jsGet_obj, h2, ht,
        if_true, if_false, Bool.false_eq_true, ite_false, ite_true,
        String.append_assoc, str_append_empty]

/-- Witness for C5 at a booking whose `bestDays` field is the sequence
`["Fri"]`. -/
theorem bestDays_preferred_row_witness :
    jsGet (.obj [("bestDays", .arr [.str "Fri"])]) "bestDays" = .arr [.str "Fri"] ∧
    bestDaysDisplay (.obj [("bestDays", .arr [.str "Fri"])]) =
      jsToString (formatValue (.arr [.str "Fri"])) :=
  ⟨rfl, bestDays_preferred_row.2.1 (.obj [("bestDays", .arr [.str "Fri"])]) [.str "Fri"] rfl⟩

/-- The concrete contact submission of claim C6. -/
def annBody : ContactBody :=
  ⟨.str "Ann", .str "ann@x.com", .str "123", .str "Leak", .str "Help"⟩

/-- C6: for the contact submission `{ name: "Ann", email: "ann@x.com",
phone: "123", subject: "Leak", message: "Help" }`, when the transport
accepts both messages the handler sends exactly two e-mails — one to
the configured admin address with subject "New Contact: Leak" and one
to ann@x.com with subject "We received your message - Loksar" — and
responds 200 with success true. -/
theorem contact_two_emails :
    ∀ (transport : EmailMsg → Bool) (env : Env),
      transport (contactAdminMsg env annBody) = true →
      transport (contactUserMsg env annBody) = true →
      (contactHandler transport env annBody).attempted =
        [contactAdminMsg env annBody, contactUserMsg env annBody] ∧
      (contactAdminMsg env annBody).toAddr = .str env.ADMIN_EMAIL ∧
      (contactAdminMsg env annBody).subject = "New Contact: Leak" ∧
      (contactUserMsg env annBody).toAddr = .str "ann@x.com" ∧
      (contactUserMsg env annBody).subject = "We received your message - Loksar" ∧
      (contactHandler transport env annBody).status = 200 ∧
      (contactHandler transport env annBody).success = true := by
  intro transport env h1 h2
  obtain ⟨hs, ha, hst⟩ :=
    respond_two transport (contactAdminMsg env annBody) (contactUserMsg env annBody)
  have hsucc : (contactHandler transport env annBody).success = true := hs.mpr ⟨h1, h2⟩
  refine ⟨?_, rfl, rfl, rfl, rfl, ?_, hsucc⟩
  · rw [show (contactHandler transport env annBody).attempted =
        (if transport (contactAdminMsg env annBody) then
          [contactAdminMsg env annBody, contactUserMsg env annBody]
         else [contactAdminMsg env annBody]) from ha, h1]
    simp
  · rw [show (contactHandler transport env annBody).status =
        (if (contactHandler transport env annBody).success then 200 else 500) from hst, hsucc]
    simp

/-- Witness for C6 with a transport that accepts everything. -/
theorem contact_two_emails_witness :
    (contactHandler (fun _ => true) ⟨"sender@loksar.com", "admin@loksar.com", 2025⟩
        annBody).status = 200 ∧
    (contactHandler (fun _ => true) ⟨"sender@loksar.com", "admin@loksar.com", 2025⟩
        annBody).success = true :=
  ⟨(contact_two_emails (fun _ => true) ⟨"sender@loksar.com", "admin@loksar.com", 2025⟩
      rfl rfl).2.2.2.2.2.1,
   (contact_two_emails (fun _ => true) ⟨"sender@loksar.com", "admin@loksar.com", 2025⟩
      rfl rfl).2.2.2.2.2.2⟩

/-- C7: `sendEmail` surfaces a transport rejection to its caller (it
fails exactly when the transport rejects, after a single attempt), and
when the admin send of a cleaning booking is rejected the handler's
outer boundary turns it into a 500 / success-false response, with the
admin message the only attempted send (no retry, no customer send, no
unhandled error escaping the handler). -/
theorem transport_failure_propagates :
    (∀ (transport : EmailMsg → Bool) (m : EmailMsg),
        sendEmail transport m = Except.error () ↔ transport m = false) ∧
    ∀ (transport : EmailMsg → Bool) (env : Env) (body : BookingRequestBody),
      transport (cleaningAdminMsg env body) = false →
      (cleaningHandler transport env body).status = 500 ∧
      (cleaningHandler transport env body).success = false ∧
      (cleaningHandler transport env body).attempted = [cleaningAdminMsg env body] := by
  constructor
  · intro t m
    cases h : t m <;> simp [sendEmail, h]
  · intro t env body h
    refine ⟨?_, ?_, ?_⟩ <;> simp [cleaningHandler, respond, runSends, sendEmail, h]

/-- Witness for C7 with a transport that rejects everything. -/
theorem transport_failure_propagates_witness :
    (fun (_ : EmailMsg) => false)
        (cleaningAdminMsg ⟨"sender@loksar.com", "admin@loksar.com", 2025⟩
          ⟨.obj [], .obj [], .undefined, none⟩) = false ∧
    (cleaningHandler (fun _ => false) ⟨"sender@loksar.com", "admin@loksar.com", 2025⟩
        ⟨.obj [], .obj [], .undefined, none⟩).status = 500 :=
  ⟨rfl,
   (transport_failure_propagates.2 (fun _ => false)
      ⟨"sender@loksar.com", "admin@loksar.com", 2025⟩
      ⟨.obj [], .obj [], .undefined, none⟩ rfl).1⟩

/-- C8: for every cleaning or gardening booking, the
(filename, binary-content) attachments built from the uploaded files go
only on the admin e-mail; the customer e-mail's attachment list is
empty. -/
theorem attachments_only_on_admin :
    ∀ (env : Env) (body : BookingRequestBody),
      (cleaningAdminMsg env body).attachments = emailAttachmentsOf body.files ∧
      (cleaningUserMsg env body).attachments = [] ∧
      (gardeningAdminMsg env body).attachments = emailAttachmentsOf body.files ∧
      (gardeningUserMsg env body).attachments = [] ∧
      ∀ fs : List UploadedFile,
        emailAttachmentsOf (some fs) = fs.map (fun f => ⟨f.originalname, f.buffer⟩) :=
  fun _ _ => ⟨rfl, rfl, rfl, rfl, fun _ => rfl⟩

/-- C9: in each of the three handlers the two sends are sequential —
the admin message is attempted first and the customer message is
attempted only when the admin send succeeds — and the handler reports
success (200) exactly when both sends complete. -/
theorem sends_sequential_all_or_nothing :
    ∀ (transport : EmailMsg → Bool) (env : Env)
      (cb : ContactBody) (bb : BookingRequestBody),
      (((contactHandler transport env cb).success = true ↔
          (transport (contactAdminMsg env cb) = true ∧
            transport (contactUserMsg env cb) = true)) ∧
        (contactHandler transport env cb).attempted =
          (if transport (contactAdminMsg env cb) then
            [contactAdminMsg env cb, contactUserMsg env cb]
           else [contactAdminMsg env cb]) ∧
        (contactHandler transport env cb).status =
          (if (contactHandler transport env cb).success then 200 else 500)) ∧
      (((cleaningHandler transport env bb).success = true ↔
          (transport (cleaningAdminMsg env bb) = true ∧
            transport (cleaningUserMsg env bb) = true)) ∧
        (cleaningHandler transport env bb).attempted =
          (if transport (cleaningAdminMsg env bb) then
            [cleaningAdminMsg env bb, cleaningUserMsg env bb]
           else [cleaningAdminMsg env bb]) ∧
        (cleaningHandler transport env bb).status =
          (if (cleaningHandler transport env bb).success then 200 else 500)) ∧
      (((gardeningHandler transport env bb).success = true ↔
          (transport (gardeningAdminMsg env bb) = true ∧
            transport (gardeningUserMsg env bb) = true)) ∧
        (gardeningHandler transport env bb).attempted =
          (if transport (gardeningAdminMsg env bb) then
            [gardeningAdminMsg env bb, gardeningUserMsg env bb]
           else [gardeningAdminMsg env bb]) ∧
        (gardeningHandler transport env bb).status =
          (if (gardeningHandler transport env bb).success then 200 else 500)) :=
  fun transport env cb bb =>
    ⟨respond_two transport (contactAdminMsg env cb) (contactUserMsg env cb),
     respond_two transport (cleaningAdminMsg env bb) (cleaningUserMsg env bb),
     respond_two transport (gardeningAdminMsg env bb) (gardeningUserMsg env bb)⟩

/-- C10: in both booking handlers, when the free-text description field
is absent (`undefined`) or the empty string, the admin e-mail contains
the literal text "No additional notes provided." in its Customer Notes
section. -/
theorem empty_description_notes_placeholder :
    ∀ (env : Env) (userDetails bookingDetails : JSValue)
      (files : Option (List UploadedFile)) (d : JSValue),
      (d = .undefined ∨ d = .str "") →
      ContainsSub (cleaningAdminMsg env ⟨userDetails, bookingDetails, d, files⟩).html
        "No additional notes provided." ∧
      ContainsSub (gardeningAdminMsg env ⟨userDetails, bookingDetails, d, files⟩).html
        "No additional notes provided." := by
  intro env userDetails bookingDetails files d h
  rcases h with rfl | rfl <;>
  refine ⟨?_, ?_⟩ <;>
  · simp only [cleaningAdminMsg, gardeningAdminMsg, mailOptions, generateEmailTemplate,
      cleaningAdminContent, gardeningAdminContent, jsOr_undefined, jsOr_str_empty, jsToString_str]
    apply containsSub_appL
    apply containsSub_appL
    apply containsSub_appL
    apply containsSub_cons
    apply containsSub_appL
    exact containsSub_tail _ _

/-- Witness for C10 with an absent description. -/
theorem empty_description_notes_placeholder_witness :
    (JSValue.undefined = JSValue.undefined ∨ JSValue.undefined = JSValue.str "") ∧
    ContainsSub
      (cleaningAdminMsg ⟨"sender@loksar.com", "admin@loksar.com", 2025⟩
        ⟨.obj [], .obj [], .undefined, none⟩).html
      "No additional notes provided." :=
  ⟨Or.inl rfl,
   (empty_description_notes_placeholder ⟨"sender@loksar.com", "admin@loksar.com", 2025⟩
      (.obj []) (.obj []) none .undefined (Or.inl rfl)).1⟩

end Loksar
